import Mathlib

/-!
Verification of the tool-checkout console client (frontend engineer console).

The definitions below are a shallow embedding of the client script: the global
`state` object becomes the `ClientState` record (together with the persisted
`localStorage` slot and the user-visible status strings), every event handler
becomes a state transformer, and each network exchange is modelled by an
`ApiResponse` value standing for the server's reply to the one request the
handler issues.  JavaScript numbers that participate in the claims are decimal
quantities (threshold percentages and two-decimal fractions), modelled as `ℚ`;
JavaScript truthiness on strings (`""` is falsy) is modelled by `jsTruthy`.
-/

/-- A tool definition as served by `GET /api/tools`. -/
structure Tool where
  tool_id : String
  name : String
  description : String
deriving DecidableEq

/-- One detected object inside an analysis payload. -/
structure Detected where
  label : String
  tool_id : Option String
  confidence : ℚ
deriving DecidableEq

/-- The `analysis` object of an analyse response. -/
structure Analysis where
  match_ratio : ℚ
  below_threshold : Bool
  detected : List Detected
  missing_tool_ids : List String
  unexpected_labels : List String
deriving DecidableEq

/-- The full payload of `POST /api/sessions/{id}/analyse`:
the value stored into `state.latestAnalysis`. -/
structure AnalysisResult where
  analysis : Analysis
  session_status : String
deriving DecidableEq

/-- The payload of `POST /api/sessions`: the value handed to `applySession`. -/
structure Session where
  session_id : String
  mode : String
  expected_tool_ids : List String
  threshold : ℚ
deriving DecidableEq

/-- The `GET /api/auth/me` payload stored into `state.engineer`. -/
structure Engineer where
  username : String
  role : String
deriving DecidableEq

/-- A file offered to `handleFileList`; only its MIME type drives the logic. -/
structure JsFile where
  name : String
  type : String
deriving DecidableEq

/-- The server's reply to one request, as seen by `apiRequest`: a parsed 2xx
payload, a 401, another non-2xx status with an optional `detail`, or a
rejected `fetch` (network failure) carrying the error message. -/
inductive ApiResponse (α : Type) where
  | ok (value : α)
  | http401
  | serverError (detail : Option String)
  | networkFailure (message : String)
deriving DecidableEq

/-- The client's mutable state: the fields of the global `state` object of the
engineer console, the persisted `localStorage` token slot (`storage`), and the
user-visible message surfaces (login error, session-form status line, analysis
summary line, system status line). -/
structure ClientState where
  storage : Option String
  token : Option String
  engineer : Option Engineer
  toolCatalog : List Tool
  sessionId : Option String
  sessionMode : Option String
  expectedToolIds : List String
  threshold : ℚ
  latestAnalysis : Option AnalysisResult
  currentStep : Int
  loginError : Option String
  formStatus : Option String
  analysisSummary : String
  systemStatus : String
deriving DecidableEq

/-- JavaScript truthiness of a nullable string: `null` and `""` are falsy. -/
def jsTruthy : Option String → Bool
  | none => false
  | some v => v != ""

/-- JavaScript `x || d` on a (non-NaN) number: `0` is falsy. -/
def jsOrNum (x d : ℚ) : ℚ := if x = 0 then d else x

/-- JavaScript `Math.round`: round half toward positive infinity. -/
def jsRound (q : ℚ) : Int := ⌊q + 1 / 2⌋

/-- JavaScript `Number(x.toFixed(2))` on the nonnegative decimal quantities the
client manipulates: round to the nearest multiple of `1/100`. -/
def round2 (q : ℚ) : ℚ := (jsRound (q * 100) : ℚ) / 100

/-- The threshold normalization performed by the session-form submit handler:
`Number((Number(formData.get('threshold')) || 90 / 100).toFixed(2))` with the
`|| 90` default applied to the falsy percentage `0`. -/
def normalizeThreshold (pct : ℚ) : ℚ := round2 (jsOrNum pct 90 / 100)

/-- The reverse conversion displayed by the client:
`Math.round(state.threshold * 100)`. -/
def thresholdToPercent (f : ℚ) : Int := jsRound (f * 100)

def msgLoginNeeded : String := "Необходимо войти в систему"

def msgReady : String := "Готов к работе"

def msgSessionExpired : String := "Сессия истекла, войдите снова"

def msgAuthRequired : String := "Требуется авторизация"

def msgUnknownError : String := "Неизвестная ошибка"

def msgNoData : String := "Нет данных. Загрузите изображение."

def msgProcessing : String := "Обработка изображения..."

/-- The step guard `canAccessStep`: any step at or below 1 is allowed, step 2
requires a truthy `state.sessionId`, step 3 requires `state.latestAnalysis`,
and everything above 3 is refused. -/
def canAccessStep (s : ClientState) (step : Int) : Bool :=
  if step ≤ 1 then true
  else if step = 2 then jsTruthy s.sessionId
  else if step = 3 then s.latestAnalysis.isSome
  else false

/-- The navigation entry point `goToStep`: apply the guard, then record the
step (section visibility and the stepper are rendering only). -/
def goToStep (s : ClientState) (step : Int) : ClientState :=
  if canAccessStep s step then { s with currentStep := step } else s

/-- `resetUpload` clears the preview and the analysis panel and nulls
`state.latestAnalysis`. -/
def resetUpload (s : ClientState) : ClientState :=
  { s with analysisSummary := msgNoData, latestAnalysis := none }

/-- `switchToLogin` shows the login panel, hides the auth error and sets the
system status line. -/
def switchToLogin (s : ClientState) : ClientState :=
  { s with loginError := none, systemStatus := msgLoginNeeded }

/-- `showAuthError` fills and reveals the login error line. -/
def showAuthError (message : String) (s : ClientState) : ClientState :=
  { s with loginError := some message }

/-- `resetWizard(silent)` clears the session fields, the analysis and the form
status, forces step 1, and unless `silent` resets the status line. -/
def resetWizard (silent : Bool) (s : ClientState) : ClientState :=
  let s1 := { s with sessionId := none, sessionMode := none, expectedToolIds := [],
                     threshold := (9 : ℚ) / 10, latestAnalysis := none, currentStep := 1,
                     formStatus := none }
  let s2 := resetUpload s1
  let s3 := goToStep s2 1
  if silent then s3 else { s3 with systemStatus := msgReady }

/-- `handleUnauthorized(message)` removes the persisted credential, clears the
in-memory token and profile, tears the wizard down and returns to the login
panel, showing `message` when one is given. -/
def handleUnauthorized (message : Option String) (s : ClientState) : ClientState :=
  let s1 := { s with storage := none, token := none, engineer := none }
  let s2 := resetWizard true s1
  let s3 := switchToLogin s2
  match message with
  | some m => showAuthError m s3
  | none => s3

/-- The `payload.detail || detail` fallback of the error branch of
`apiRequest`: a missing or empty detail becomes the generic message. -/
def detailOrDefault : Option String → String
  | none => msgUnknownError
  | some m => if m = "" then msgUnknownError else m

/-- `apiRequest(path, {auth, ...})` confronted with one server reply: fail fast
without a network call when authentication is required but no token is truthy;
intercept a 401 by `handleUnauthorized` before throwing; turn any other
non-2xx status into a thrown `detail` message; propagate a `fetch` rejection. -/
def apiRequest {α : Type} (auth : Bool) (resp : ApiResponse α) (s : ClientState) :
    ClientState × Except String α :=
  if auth && !jsTruthy s.token then (s, .error msgAuthRequired)
  else
    match resp with
    | .ok value => (s, .ok value)
    | .http401 => (handleUnauthorized (some msgSessionExpired) s, .error msgSessionExpired)
    | .serverError detail => (s, .error (detailOrDefault detail))
    | .networkFailure message => (s, .error message)

/-- `applySession(session)` installs a freshly created checkout session,
discards any prior analysis, clears the upload panel and advances to step 2. -/
def applySession (sess : Session) (s : ClientState) : ClientState :=
  let s1 := { s with sessionId := some sess.session_id,
                     sessionMode := some sess.mode,
                     expectedToolIds := sess.expected_tool_ids,
                     threshold := sess.threshold,
                     latestAnalysis := none }
  let s2 := resetUpload s1
  goToStep s2 2

def msgCatalogLoading : String := "Каталог инструментов ещё загружается, попробуйте позже."

def msgChooseTool : String := "Выберите хотя бы один инструмент из списка."

def msgAuthToCreate : String := "Авторизуйтесь, чтобы создать сессию."

def msgCreating : String := "Создание сессии..."

def msgCreated : String := "Сессия создана. Можно переходить к загрузке."

def msgSessionActive : String := "Сессия активна"

def msgCreateFailed : String := "Не удалось создать сессию"

def msgCreateError : String := "Ошибка при создании сессии"

/-- The session-form submit handler: the catalog, selection and token guards
run before any network call; on success `applySession` installs the reply; on
failure only the status lines change (and, after a 401, the token test that
guards the status line fails on the already-cleared token). -/
def submitSessionForm (mode : String) (thresholdRaw : ℚ) (expectedTools : List String)
    (resp : ApiResponse Session) (s : ClientState) : ClientState :=
  if s.toolCatalog.isEmpty then { s with formStatus := some msgCatalogLoading }
  else if expectedTools.isEmpty then { s with formStatus := some msgChooseTool }
  else if !jsTruthy s.token then
    { s with formStatus := some msgAuthToCreate, systemStatus := msgLoginNeeded }
  else
    let s1 := { s with formStatus := some msgCreating, systemStatus := msgCreating }
    match apiRequest true resp s1 with
    | (s2, .ok sess) =>
        let s3 := applySession sess s2
        { s3 with formStatus := some msgCreated, systemStatus := msgSessionActive }
    | (s2, .error msg) =>
        let s3 := { s2 with formStatus := some (if msg = "" then msgCreateFailed else msg) }
        if jsTruthy s3.token then { s3 with systemStatus := msgCreateError } else s3

/-- The session payload transmitted by the submit handler, built from the raw
form values; its `threshold` field is the normalized fraction. -/
def sessionPayload (mode : String) (thresholdRaw : ℚ) (expectedTools : List String) :
    Session :=
  { session_id := "", mode := mode, expected_tool_ids := expectedTools,
    threshold := normalizeThreshold thresholdRaw }

/-- The summary line written by `renderAnalysis`. -/
def analysisSummaryText (r : AnalysisResult) : String :=
  if r.analysis.below_threshold then
    "Совпадений " ++ toString (jsRound (r.analysis.match_ratio * 100)) ++
      "% — требуется ручная сверка."
  else
    "Совпадений " ++ toString (jsRound (r.analysis.match_ratio * 100)) ++
      "%. Статус: " ++ r.session_status ++ "."

/-- `renderAnalysis` rewrites the analysis panel (summary line, detected table
and chip lists are rendering; only the summary line is part of the state). -/
def renderAnalysis (r : AnalysisResult) (s : ClientState) : ClientState :=
  { s with analysisSummary := analysisSummaryText r }

/-- The continuation of `uploadFile` after its awaited request settles: a
successful reply is installed unconditionally as `state.latestAnalysis`,
rendered, and followed by `goToStep(3)`; a failure only rewrites the summary
line (after a 401 the request path has already torn the wizard down). -/
def applyAnalysisOutcome (out : ClientState × Except String AnalysisResult) : ClientState :=
  match out with
  | (s, .ok result) =>
      let s1 := { s with latestAnalysis := some result }
      let s2 := renderAnalysis result s1
      goToStep s2 3
  | (s, .error msg) => { s with analysisSummary := "Ошибка: " ++ msg }

/-- An event of the analysis exchange: a submission starts (the handler writes
the progress line and issues the request) or a response arrives (the awaited
continuation runs).  The script keeps no in-flight flag and no request
sequence number, so an arrival applies to whatever state is current. -/
inductive UploadEvent where
  | submit (file : JsFile)
  | arrive (resp : ApiResponse AnalysisResult)

/-- One step of the analysis exchange. -/
def uploadEventStep (e : UploadEvent) (s : ClientState) : ClientState :=
  match e with
  | .submit _ => { s with analysisSummary := msgProcessing }
  | .arrive resp => applyAnalysisOutcome (apiRequest true resp s)

/-- `uploadFile(file)` run to completion against one reply: the submission
event immediately followed by its own arrival. -/
def uploadFile (file : JsFile) (resp : ApiResponse AnalysisResult) (s : ClientState) :
    ClientState :=
  uploadEventStep (.arrive resp) (uploadEventStep (.submit file) s)

def msgLoginFirst : String := "Сначала войдите в систему."

def msgCreateSessionFirst : String := "Сначала создайте сессию."

def msgImagesOnly : String := "Поддерживаются только изображения (JPEG, PNG, WEBP)."

/-- The MIME allow-list of `handleFileList`. -/
def validImageType (t : String) : Bool :=
  ["image/png", "image/jpeg", "image/webp"].contains t

/-- `handleFileList(fileList)` with the reply the upload would receive: the
result is the new state, the number of gateway calls issued, and the alert
message shown, if any.  The token, session and MIME guards all return before
any network call. -/
def handleFileList (files : List JsFile) (resp : ApiResponse AnalysisResult)
    (s : ClientState) : ClientState × Nat × Option String :=
  if !jsTruthy s.token then (s, 0, some msgLoginFirst)
  else if !jsTruthy s.sessionId then (s, 0, some msgCreateSessionFirst)
  else
    match files with
    | [] => (s, 0, none)
    | file :: _ =>
        if !validImageType file.type then (s, 0, some msgImagesOnly)
        else (uploadFile file resp s, 1, none)

/-- `fetchToolCatalog` with its reply: the fetch bypasses `apiRequest`, and
its `catch` swallows every failure (the catalog panel alone shows an error),
so a failed load leaves the state untouched. -/
def fetchToolCatalog (resp : Option (List Tool)) (s : ClientState) : ClientState :=
  match resp with
  | some tools => { s with toolCatalog := tools }
  | none => s

/-- `switchToWizard` reveals the wizard and replays `goToStep` on the current
step when a session is live, else on step 1, then sets the status line. -/
def switchToWizard (s : ClientState) : ClientState :=
  let s1 := goToStep s (if jsTruthy s.sessionId then s.currentStep else 1)
  { s1 with systemStatus := if jsTruthy s1.sessionId then msgSessionActive else msgReady }

/-- `verifySession` with the reply of the profile fetch and of the catalog
load: a falsy token throws before the guarded block; a successful profile
fetch stores the profile, loads the catalog, resets the wizard silently and
shows it; any failure of the profile fetch lands in the `catch`, which calls
`handleUnauthorized` with the failure message and rethrows. -/
def verifySession (profileResp : ApiResponse Engineer) (catalogResp : Option (List Tool))
    (s : ClientState) : ClientState × Except String Unit :=
  if !jsTruthy s.token then (s, .error msgAuthRequired)
  else
    match apiRequest true profileResp s with
    | (s1, .ok profile) =>
        let s2 := fetchToolCatalog catalogResp { s1 with engineer := some profile }
        let s3 := resetWizard true s2
        (switchToWizard s3, .ok ())
    | (s1, .error msg) => (handleUnauthorized (some msg) s1, .error msg)

def msgFillLogin : String := "Укажите логин и пароль"

def msgLoginFailed : String := "Не удалось выполнить вход"

/-- `handleLogin` with the replies of the login call and of the verification
that follows it: the `username` and `password` parameters are the form values
after the handler's `.trim()`; empty credentials fail locally; a successful
login stores the token in memory and in `localStorage` and runs
`verifySession`; every caught failure is shown on the login error line. -/
def handleLogin (username password : String) (loginResp : ApiResponse String)
    (profileResp : ApiResponse Engineer) (catalogResp : Option (List Tool))
    (s : ClientState) : ClientState :=
  let s0 := { s with loginError := none }
  if username = "" || password = "" then showAuthError msgFillLogin s0
  else
    match apiRequest false loginResp s0 with
    | (s1, .ok tok) =>
        let s2 := { s1 with token := some tok, storage := some tok }
        match verifySession profileResp catalogResp s2 with
        | (s3, .ok _) => s3
        | (s3, .error msg) => showAuthError (if msg = "" then msgLoginFailed else msg) s3
    | (s1, .error msg) => showAuthError (if msg = "" then msgLoginFailed else msg) s1

/-- `handleLogout`: the best-effort logout call is ignored, then
`handleUnauthorized` runs with no message. -/
def handleLogout (s : ClientState) : ClientState :=
  handleUnauthorized none s

/-- The literal initial `state` object together with blank message surfaces. -/
def initState : ClientState :=
  { storage := none, token := none, engineer := none, toolCatalog := [],
    sessionId := none, sessionMode := none, expectedToolIds := [],
    threshold := (9 : ℚ) / 10, latestAnalysis := none, currentStep := 1,
    loginError := none, formStatus := none, analysisSummary := msgNoData,
    systemStatus := "" }

/-- `init()` at page load, given the persisted token slot and the replies the
silent re-authentication would receive: show the login panel, and when a
truthy token was saved, adopt it and run `verifySession` (whose failure is
only logged). -/
def appInit (saved : Option String) (profileResp : ApiResponse Engineer)
    (catalogResp : Option (List Tool)) : ClientState :=
  let s := switchToLogin { initState with storage := saved }
  if jsTruthy saved then
    (verifySession profileResp catalogResp
      { s with token := saved }).1
  else s

/-- One user- or network-triggered event of the console: direct navigation
(`goToStep` from the back buttons), button handlers, form submissions with the
server reply they receive, and logout. -/
inductive ClientAction where
  | goTo (step : Int)
  | backToUpload
  | resetUploadClick
  | startNewSession
  | submitSession (mode : String) (thresholdRaw : ℚ) (tools : List String)
      (resp : ApiResponse Session)
  | chooseFiles (files : List JsFile) (resp : ApiResponse AnalysisResult)
  | login (username password : String) (loginResp : ApiResponse String)
      (profileResp : ApiResponse Engineer) (catalogResp : Option (List Tool))
  | logout

/-- The handler each action runs: `backToConfig` is `goTo 1`, `backToUpload`
is guarded by a live session, the reset-upload button replays `goToStep(2)`,
and start-new-session is `resetWizard()` followed by `goToStep(1)`. -/
def stepAction : ClientAction → ClientState → ClientState
  | .goTo n, s => goToStep s n
  | .backToUpload, s => if jsTruthy s.sessionId then goToStep s 2 else s
  | .resetUploadClick, s => goToStep (resetUpload s) 2
  | .startNewSession, s => goToStep (resetWizard false s) 1
  | .submitSession mode thr tools resp, s => submitSessionForm mode thr tools resp s
  | .chooseFiles files resp, s => (handleFileList files resp s).1
  | .login u p lr pr cr, s => handleLogin u p lr pr cr s
  | .logout, s => handleLogout s

/-- Well-formedness of the collaborating server (spec section 1 assumes the
services are correct): a created checkout session carries a real, nonempty
server-assigned identifier. -/
def wfAction : ClientAction → Prop
  | .submitSession _ _ _ (.ok sess) => sess.session_id ≠ ""
  | _ => True

/-- The states the console can be in: any page load, followed by any sequence
of events whose session replies are well formed. -/
inductive Reachable : ClientState → Prop where
  | init (saved : Option String) (profileResp : ApiResponse Engineer)
      (catalogResp : Option (List Tool)) :
      Reachable (appInit saved profileResp catalogResp)
  | step (a : ClientAction) (s : ClientState) : Reachable s → wfAction a →
      Reachable (stepAction a s)

/-- The inductive wizard invariant: step 2 only with a truthy session id,
step 3 only with a live analysis, and a live analysis only alongside a truthy
session id. -/
def WizardInv (s : ClientState) : Prop :=
  (s.currentStep = 2 → jsTruthy s.sessionId = true) ∧
  (s.currentStep = 3 → s.latestAnalysis.isSome = true) ∧
  (s.latestAnalysis.isSome = true → jsTruthy s.sessionId = true)

/-- The fields of the state other than the message surfaces: persisted and
in-memory credential, profile, catalog, the session record, the analysis and
the wizard position. -/
def coreState (s : ClientState) :
    Option String × Option String × Option Engineer × List Tool × Option String ×
      Option String × List String × ℚ × Option AnalysisResult × Int :=
  (s.storage, s.token, s.engineer, s.toolCatalog, s.sessionId, s.sessionMode,
    s.expectedToolIds, s.threshold, s.latestAnalysis, s.currentStep)

/-- The actions after which a cleared token is expected: explicit logout, a
401 reply to an authenticated exchange, and a failed profile verification
during login. -/
def DemotingAction : ClientAction → Prop
  | .logout => True
  | .submitSession _ _ _ resp => resp = ApiResponse.http401
  | .chooseFiles _ resp => resp = ApiResponse.http401
  | .login _ _ loginResp profileResp _ =>
      loginResp = ApiResponse.http401 ∨
        (∃ tok, loginResp = ApiResponse.ok tok ∧ ∀ prof, profileResp ≠ ApiResponse.ok prof)
  | _ => False

/-- A state holding a bearer credential and nothing else. -/
def authedState : ClientState :=
  { initState with token := some "tok", storage := some "tok" }

/-- A state with a live session awaiting an upload. -/
def pendingState : ClientState :=
  { initState with token := some "tok", sessionId := some "S-1",
                   sessionMode := some "handout", expectedToolIds := ["t1"],
                   currentStep := 2 }

/-- A first analysis reply. -/
def resultA : AnalysisResult :=
  { analysis := { match_ratio := 0, below_threshold := true, detected := [],
                  missing_tool_ids := ["t1"], unexpected_labels := [] },
    session_status := "pending" }

/-- A second analysis reply, distinct from the first. -/
def resultB : AnalysisResult :=
  { analysis := { match_ratio := 1, below_threshold := false, detected := [],
                  missing_tool_ids := [], unexpected_labels := [] },
    session_status := "completed" }

/-- A first uploaded image. -/
def fileA : JsFile := { name := "a.png", type := "image/png" }

/-- A second uploaded image. -/
def fileB : JsFile := { name := "b.png", type := "image/png" }

/-- A file whose MIME type is not an accepted image type. -/
def filePdf : JsFile := { name := "doc.pdf", type := "application/pdf" }

/-- The logged-out target state of the 401 teardown: no persisted credential,
no in-memory token or profile, no session, no analysis, wizard at step 1. -/
def loggedOutCleared (s : ClientState) : Prop :=
  s.storage = none ∧ s.token = none ∧ s.engineer = none ∧ s.sessionId = none ∧
    s.latestAnalysis = none ∧ s.currentStep = 1

/-- An authenticated state with a loaded one-tool catalog. -/
def catalogState : ClientState :=
  { initState with token := some "tok", storage := some "tok",
                   toolCatalog := [{ tool_id := "t1", name := "Wrench", description := "" }] }

/-- A concrete engineer profile. -/
def engineerU : Engineer := { username := "u", role := "engineer" }

theorem resetWizard_eq (b : Bool) (s : ClientState) :
    resetWizard b s =
      { s with sessionId := none, sessionMode := none, expectedToolIds := [],
               threshold := (9 : ℚ) / 10, latestAnalysis := none, currentStep := 1,
               formStatus := none, analysisSummary := msgNoData,
               systemStatus := if b then s.systemStatus else msgReady } := by
  cases b <;> rfl

theorem handleUnauthorized_eq (message : Option String) (s : ClientState) :
    handleUnauthorized message s =
      { s with storage := none, token := none, engineer := none, sessionId := none,
               sessionMode := none, expectedToolIds := [], threshold := (9 : ℚ) / 10,
               latestAnalysis := none, currentStep := 1, formStatus := none,
               analysisSummary := msgNoData, loginError := message,
               systemStatus := msgLoginNeeded } := by
  cases message <;> rfl

theorem apiRequest_ok_fst {α : Type} (auth : Bool) (v : α) (s : ClientState) :
    (apiRequest auth (.ok v) s).1 = s := by
  unfold apiRequest; split <;> rfl

theorem apiRequest_serverError_fst {α : Type} (auth : Bool) (d : Option String)
    (s : ClientState) : (apiRequest (α := α) auth (.serverError d) s).1 = s := by
  unfold apiRequest; split <;> rfl

theorem apiRequest_networkFailure_fst {α : Type} (auth : Bool) (m : String)
    (s : ClientState) : (apiRequest (α := α) auth (.networkFailure m) s).1 = s := by
  unfold apiRequest; split <;> rfl

theorem apiRequest_auth_ok (v : Engineer) (s : ClientState) (h : jsTruthy s.token = true) :
    (apiRequest true (.ok v) s) = (s, .ok v) := by
  simp [apiRequest, h]

theorem apiRequest_401_eq {α : Type} (s : ClientState) (h : jsTruthy s.token = true) :
    apiRequest (α := α) true .http401 s =
      (handleUnauthorized (some msgSessionExpired) s, .error msgSessionExpired) := by
  simp [apiRequest, h]

theorem goToStep_two (s : ClientState) :
    goToStep s 2 = if jsTruthy s.sessionId then { s with currentStep := 2 } else s := rfl

theorem goToStep_three (s : ClientState) :
    goToStep s 3 = if s.latestAnalysis.isSome then { s with currentStep := 3 } else s := rfl

theorem goToStep_le_one (s : ClientState) (n : Int) (h : n ≤ 1) :
    goToStep s n = { s with currentStep := n } := by
  have hc : canAccessStep s n = true := by simp [canAccessStep, h]
  simp [goToStep, hc]

theorem goToStep_ge_four (s : ClientState) (n : Int) (h : 4 ≤ n) :
    goToStep s n = s := by
  have h1 : ¬ n ≤ 1 := by omega
  have h2 : n ≠ 2 := by omega
  have h3 : n ≠ 3 := by omega
  have hc : canAccessStep s n = false := by simp [canAccessStep, h1, h2, h3]
  simp [goToStep, hc]

theorem apiRequest_ok_eq {α : Type} (auth : Bool) (v : α) (s : ClientState) :
    apiRequest auth (.ok v) s =
      if auth && !jsTruthy s.token then (s, .error msgAuthRequired) else (s, .ok v) := by
  unfold apiRequest
  split <;> rfl

theorem apiRequest_http401_eq {α : Type} (auth : Bool) (s : ClientState) :
    apiRequest (α := α) auth .http401 s =
      if auth && !jsTruthy s.token then (s, .error msgAuthRequired)
      else (handleUnauthorized (some msgSessionExpired) s, .error msgSessionExpired) := by
  unfold apiRequest
  split <;> rfl

theorem apiRequest_serverError_eq {α : Type} (auth : Bool) (d : Option String)
    (s : ClientState) :
    apiRequest (α := α) auth (.serverError d) s =
      (s, .error (if auth && !jsTruthy s.token then msgAuthRequired else detailOrDefault d)) := by
  unfold apiRequest
  split <;> rfl

theorem apiRequest_networkFailure_eq {α : Type} (auth : Bool) (m : String) (s : ClientState) :
    apiRequest (α := α) auth (.networkFailure m) s =
      (s, .error (if auth && !jsTruthy s.token then msgAuthRequired else m)) := by
  unfold apiRequest
  split <;> rfl

theorem WizardInv_resetWizard (b : Bool) (s : ClientState) : WizardInv (resetWizard b s) := by
  rw [resetWizard_eq]
  refine ⟨?_, ?_, ?_⟩ <;> intro hx <;> simp at hx

theorem WizardInv_handleUnauthorized (m : Option String) (s : ClientState) :
    WizardInv (handleUnauthorized m s) := by
  rw [handleUnauthorized_eq]
  refine ⟨?_, ?_, ?_⟩ <;> intro hx <;> simp at hx

theorem WizardInv_goToStep (s : ClientState) (n : Int) (h : WizardInv s) :
    WizardInv (goToStep s n) := by
  unfold goToStep
  split
  next hc =>
    refine ⟨fun hn => ?_, fun hn => ?_, h.2.2⟩
    · have hn2 : n = 2 := hn
      subst hn2
      exact hc
    · have hn3 : n = 3 := hn
      subst hn3
      exact hc
  next => exact h

theorem applySession_eq (sess : Session) (s : ClientState) (hid : sess.session_id ≠ "") :
    applySession sess s =
      { s with sessionId := some sess.session_id, sessionMode := some sess.mode,
               expectedToolIds := sess.expected_tool_ids, threshold := sess.threshold,
               latestAnalysis := none, analysisSummary := msgNoData, currentStep := 2 } := by
  have ht : jsTruthy (some sess.session_id) = true := by simp [jsTruthy, hid]
  unfold applySession resetUpload
  rw [goToStep_two, if_pos ht]

theorem WizardInv_applySession (sess : Session) (s : ClientState)
    (hid : sess.session_id ≠ "") : WizardInv (applySession sess s) := by
  rw [applySession_eq sess s hid]
  have ht : jsTruthy (some sess.session_id) = true := by simp [jsTruthy, hid]
  exact ⟨fun _ => ht, fun hn => by simp at hn, fun ha => by simp at ha⟩

theorem WizardInv_update_messages (s : ClientState) (le fs : Option String)
    (asum ssum : String) (h : WizardInv s) :
    WizardInv { s with loginError := le, formStatus := fs, analysisSummary := asum,
                       systemStatus := ssum } := h

theorem WizardInv_submitSessionForm (mode : String) (thr : ℚ) (tools : List String)
    (resp : ApiResponse Session) (s : ClientState) (h : WizardInv s)
    (hwf : wfAction (.submitSession mode thr tools resp)) :
    WizardInv (submitSessionForm mode thr tools resp s) := by
  unfold submitSessionForm
  split
  next => exact h
  next =>
    split
    next => exact h
    next =>
      split
      next => exact h
      next hTok =>
        have htok : jsTruthy s.token = true := by simpa using hTok
        cases resp with
        | ok sess =>
            simp only [apiRequest_ok_eq, htok, Bool.not_true, Bool.and_false,
              Bool.false_eq_true, if_false]
            apply WizardInv_update_messages
            exact WizardInv_applySession sess _ hwf
        | http401 =>
            simp only [apiRequest_http401_eq, htok, Bool.not_true, Bool.and_false,
              Bool.false_eq_true, if_false]
            split
            next =>
              apply WizardInv_update_messages
              exact WizardInv_handleUnauthorized _ _
            next =>
              apply WizardInv_update_messages
              exact WizardInv_handleUnauthorized _ _
        | serverError d =>
            simp only [apiRequest_serverError_eq, htok, Bool.not_true, Bool.and_false,
              Bool.false_eq_true, if_false]
            split
            next => exact h
            next => exact h
        | networkFailure m =>
            simp only [apiRequest_networkFailure_eq, htok, Bool.not_true, Bool.and_false,
              Bool.false_eq_true, if_false]
            split
            next => exact h
            next => exact h

theorem WizardInv_handleFileList (files : List JsFile) (resp : ApiResponse AnalysisResult)
    (s : ClientState) (h : WizardInv s) : WizardInv (handleFileList files resp s).1 := by
  unfold handleFileList
  split
  next => exact h
  next hTok =>
    have htok : jsTruthy s.token = true := by simpa using hTok
    split
    next => exact h
    next hSess =>
      have hsess : jsTruthy s.sessionId = true := by simpa using hSess
      split
      next => exact h
      next file rest =>
        split
        next => exact h
        next =>
          unfold uploadFile uploadEventStep applyAnalysisOutcome
          cases resp with
          | ok r =>
              simp only [apiRequest_ok_eq, htok, Bool.not_true, Bool.and_false,
                Bool.false_eq_true, if_false]
              exact WizardInv_goToStep _ 3 ⟨fun _ => hsess, fun _ => rfl, fun _ => hsess⟩
          | http401 =>
              simp only [apiRequest_http401_eq, htok, Bool.not_true, Bool.and_false,
                Bool.false_eq_true, if_false]
              apply WizardInv_update_messages
              exact WizardInv_handleUnauthorized _ _
          | serverError d =>
              simp only [apiRequest_serverError_eq, htok, Bool.not_true, Bool.and_false,
                Bool.false_eq_true, if_false]
              exact h
          | networkFailure m =>
              simp only [apiRequest_networkFailure_eq, htok, Bool.not_true, Bool.and_false,
                Bool.false_eq_true, if_false]
              exact h

theorem fetchToolCatalog_eq (cr : Option (List Tool)) (s : ClientState) :
    fetchToolCatalog cr s = { s with toolCatalog := cr.getD s.toolCatalog } := by
  cases cr <;> rfl

theorem switchToWizard_after_reset (s2 : ClientState) :
    switchToWizard (resetWizard true s2) =
      { s2 with sessionId := none, sessionMode := none, expectedToolIds := [],
                threshold := (9 : ℚ) / 10, latestAnalysis := none, currentStep := 1,
                formStatus := none, analysisSummary := msgNoData, systemStatus := msgReady } := by
  rw [resetWizard_eq]
  unfold switchToWizard
  simp [jsTruthy, goToStep_le_one]

theorem verifySession_ok_eq (prof : Engineer) (cr : Option (List Tool)) (s : ClientState)
    (htok : jsTruthy s.token = true) :
    (verifySession (.ok prof) cr s).1 =
      { s with engineer := some prof, toolCatalog := cr.getD s.toolCatalog,
               sessionId := none, sessionMode := none, expectedToolIds := [],
               threshold := (9 : ℚ) / 10, latestAnalysis := none, currentStep := 1,
               formStatus := none, analysisSummary := msgNoData, systemStatus := msgReady } := by
  unfold verifySession
  simp only [htok, Bool.not_true, Bool.false_eq_true, if_false, apiRequest_ok_eq,
    Bool.and_false]
  rw [fetchToolCatalog_eq, switchToWizard_after_reset]

theorem WizardInv_verifySession (pr : ApiResponse Engineer) (cr : Option (List Tool))
    (s : ClientState) (h : WizardInv s) : WizardInv (verifySession pr cr s).1 := by
  by_cases htok : jsTruthy s.token = true
  · cases pr with
    | ok prof =>
        rw [verifySession_ok_eq prof cr s htok]
        refine ⟨?_, ?_, ?_⟩ <;> intro hx <;> simp at hx
    | http401 =>
        unfold verifySession
        simp only [htok, Bool.not_true, Bool.false_eq_true, if_false, apiRequest_http401_eq,
          Bool.and_false]
        exact WizardInv_handleUnauthorized _ _
    | serverError d =>
        unfold verifySession
        simp only [htok, Bool.not_true, Bool.false_eq_true, if_false, apiRequest_serverError_eq,
          Bool.and_false]
        exact WizardInv_handleUnauthorized _ _
    | networkFailure m =>
        unfold verifySession
        simp only [htok, Bool.not_true, Bool.false_eq_true, if_false,
          apiRequest_networkFailure_eq, Bool.and_false]
        exact WizardInv_handleUnauthorized _ _
  · have hf : jsTruthy s.token = false := by simpa using htok
    unfold verifySession
    simp only [hf, Bool.not_false, if_true]
    exact h

theorem WizardInv_handleLogin (u p : String) (lr : ApiResponse String)
    (pr : ApiResponse Engineer) (cr : Option (List Tool)) (s : ClientState)
    (h : WizardInv s) : WizardInv (handleLogin u p lr pr cr s) := by
  unfold handleLogin
  split
  next => exact h
  next =>
    cases lr with
    | ok tok =>
        simp only [apiRequest_ok_eq, Bool.false_and, Bool.false_eq_true, if_false]
        have hv := WizardInv_verifySession pr cr
          { s with loginError := none, token := some tok, storage := some tok } h
        rcases hres : verifySession pr cr
          { s with loginError := none, token := some tok, storage := some tok } with ⟨s3, res⟩
        rw [hres] at hv
        cases res with
        | ok _ => exact hv
        | error msg => exact hv
    | http401 =>
        simp only [apiRequest_http401_eq, Bool.false_and, Bool.false_eq_true, if_false]
        exact WizardInv_handleUnauthorized _ _
    | serverError d =>
        simp only [apiRequest_serverError_eq, Bool.false_and, Bool.false_eq_true, if_false]
        exact h
    | networkFailure m =>
        simp only [apiRequest_networkFailure_eq, Bool.false_and, Bool.false_eq_true, if_false]
        exact h

theorem WizardInv_initState : WizardInv initState := by
  refine ⟨?_, ?_, ?_⟩ <;> intro hx <;> simp [initState] at hx

theorem WizardInv_appInit (saved : Option String) (pr : ApiResponse Engineer)
    (cr : Option (List Tool)) : WizardInv (appInit saved pr cr) := by
  unfold appInit
  split
  next => exact WizardInv_verifySession pr cr _ WizardInv_initState
  next => exact WizardInv_initState

theorem reachable_WizardInv (s : ClientState) (h : Reachable s) : WizardInv s := by
  induction h with
  | init saved pr cr => exact WizardInv_appInit saved pr cr
  | step a s hr hwf ih =>
      cases a with
      | goTo n => exact WizardInv_goToStep s n ih
      | backToUpload =>
          show WizardInv (if jsTruthy s.sessionId = true then goToStep s 2 else s)
          split
          next => exact WizardInv_goToStep s 2 ih
          next => exact ih
      | resetUploadClick =>
          show WizardInv (goToStep (resetUpload s) 2)
          rw [goToStep_two]
          by_cases ht : jsTruthy s.sessionId = true
          · have ht2 : jsTruthy (resetUpload s).sessionId = true := ht
            rw [if_pos ht2]
            exact ⟨fun _ => ht2, fun hn => by simp at hn, fun ha => absurd ha (by simp [resetUpload])⟩
          · have ht2 : ¬jsTruthy (resetUpload s).sessionId = true := ht
            rw [if_neg ht2]
            refine ⟨fun hn => ?_, fun hn => ?_, fun ha => ?_⟩
            · exact absurd (ih.1 hn) ht
            · exact absurd (ih.2.2 (ih.2.1 hn)) ht
            · exact absurd ha (by simp [resetUpload])
      | startNewSession =>
          exact WizardInv_goToStep _ 1 (WizardInv_resetWizard false s)
      | submitSession mode thr tools resp =>
          exact WizardInv_submitSessionForm mode thr tools resp s ih hwf
      | chooseFiles files resp => exact WizardInv_handleFileList files resp s ih
      | login u p lr pr cr => exact WizardInv_handleLogin u p lr pr cr s ih
      | logout => exact WizardInv_handleUnauthorized none s

theorem goToStep_token (s : ClientState) (n : Int) : (goToStep s n).token = s.token := by
  unfold goToStep; split <;> rfl

theorem goToStep_latestAnalysis (s : ClientState) (n : Int) :
    (goToStep s n).latestAnalysis = s.latestAnalysis := by
  unfold goToStep; split <;> rfl

theorem applySession_token (sess : Session) (s : ClientState) :
    (applySession sess s).token = s.token := by
  unfold applySession resetUpload
  rw [goToStep_token]

theorem uploadFile_ok_eq (f : JsFile) (r : AnalysisResult) (s : ClientState)
    (htok : jsTruthy s.token = true) :
    uploadFile f (.ok r) s =
      { s with latestAnalysis := some r, analysisSummary := analysisSummaryText r,
               currentStep := 3 } := by
  unfold uploadFile uploadEventStep applyAnalysisOutcome renderAnalysis
  simp only [apiRequest_ok_eq, htok, Bool.not_true, Bool.and_false, Bool.false_eq_true,
    if_false]
  rw [goToStep_three]
  simp

theorem uploadFile_serverError_eq (f : JsFile) (d : Option String) (s : ClientState) :
    uploadFile f (.serverError d) s =
      { s with analysisSummary :=
          "Ошибка: " ++ (if !jsTruthy s.token then msgAuthRequired else detailOrDefault d) } := by
  unfold uploadFile uploadEventStep applyAnalysisOutcome
  simp only [apiRequest_serverError_eq, Bool.true_and]

theorem uploadFile_networkFailure_eq (f : JsFile) (m : String) (s : ClientState) :
    uploadFile f (.networkFailure m) s =
      { s with analysisSummary :=
          "Ошибка: " ++ (if !jsTruthy s.token then msgAuthRequired else m) } := by
  unfold uploadFile uploadEventStep applyAnalysisOutcome
  simp only [apiRequest_networkFailure_eq, Bool.true_and]

theorem verifySession_ok_snd (prof : Engineer) (cr : Option (List Tool)) (s : ClientState)
    (htok : jsTruthy s.token = true) :
    (verifySession (.ok prof) cr s).2 = .ok () := by
  unfold verifySession
  simp only [htok, Bool.not_true, Bool.false_eq_true, if_false, apiRequest_ok_eq,
    Bool.and_false]

theorem verifySession_fst_resets (pr : ApiResponse Engineer) (cr : Option (List Tool))
    (s : ClientState) (htok : jsTruthy s.token = true) :
    (verifySession pr cr s).1.sessionId = none ∧
    (verifySession pr cr s).1.latestAnalysis = none ∧
    (verifySession pr cr s).1.currentStep = 1 ∧
    (verifySession pr cr s).1.formStatus = none := by
  cases pr with
  | ok prof =>
      rw [verifySession_ok_eq prof cr s htok]
      exact ⟨rfl, rfl, rfl, rfl⟩
  | http401 =>
      unfold verifySession
      simp only [htok, Bool.not_true, Bool.false_eq_true, if_false, apiRequest_http401_eq,
        Bool.and_false, handleUnauthorized_eq]
      refine ⟨?_, ?_, ?_, ?_⟩ <;> trivial
  | serverError d =>
      unfold verifySession
      simp only [htok, Bool.not_true, Bool.false_eq_true, if_false, apiRequest_serverError_eq,
        Bool.and_false, handleUnauthorized_eq]
      refine ⟨?_, ?_, ?_, ?_⟩ <;> trivial
  | networkFailure m =>
      unfold verifySession
      simp only [htok, Bool.not_true, Bool.false_eq_true, if_false,
        apiRequest_networkFailure_eq, Bool.and_false, handleUnauthorized_eq]
      refine ⟨?_, ?_, ?_, ?_⟩ <;> trivial

/-- C1: over every reachable state of the console (any page load followed by
any sequence of navigation, session creation, analysis installation, resets
and logout with well-formed session ids), the wizard step is never 2 while
`state.sessionId` is null and never 3 while `state.latestAnalysis` is null;
moreover `goToStep 2` moves to step 2 exactly when the code's session guard
(`Boolean(state.sessionId)`) holds and `goToStep 3` exactly when an analysis
result exists, and otherwise leaves the state untouched. -/
theorem C1_wizard_step_gating (s : ClientState) (hs : Reachable s) :
    (s.currentStep = 2 → s.sessionId ≠ none) ∧
    (s.currentStep = 3 → s.latestAnalysis ≠ none) ∧
    goToStep s 2 = (if jsTruthy s.sessionId then { s with currentStep := 2 } else s) ∧
    goToStep s 3 = (if s.latestAnalysis.isSome then { s with currentStep := 3 } else s) := by
  have h := reachable_WizardInv s hs
  refine ⟨fun hn => ?_, fun hn => ?_, goToStep_two s, goToStep_three s⟩
  · intro he
    have ht := h.1 hn
    rw [he] at ht
    simp [jsTruthy] at ht
  · intro he
    have ht := h.2.1 hn
    rw [he] at ht
    simp at ht

/-- Witness for C1 at the concrete state reached by a fresh page load. -/
theorem C1_wizard_step_gating_witness :
    ((appInit none (.ok engineerU) none).currentStep = 2 →
      (appInit none (.ok engineerU) none).sessionId ≠ none) ∧
    ((appInit none (.ok engineerU) none).currentStep = 3 →
      (appInit none (.ok engineerU) none).latestAnalysis ≠ none) ∧
    goToStep (appInit none (.ok engineerU) none) 2 =
      (if jsTruthy (appInit none (.ok engineerU) none).sessionId then
        { appInit none (.ok engineerU) none with currentStep := 2 }
      else appInit none (.ok engineerU) none) ∧
    goToStep (appInit none (.ok engineerU) none) 3 =
      (if (appInit none (.ok engineerU) none).latestAnalysis.isSome then
        { appInit none (.ok engineerU) none with currentStep := 3 }
      else appInit none (.ok engineerU) none) :=
  C1_wizard_step_gating (appInit none (.ok engineerU) none)
    (Reachable.init none (.ok engineerU) none)

/-- C3 counterexample: the claim says every step outside 1..3 is refused with
the current step left unchanged, but `canAccessStep` accepts any step at or
below 1, so `goTo(0)` changes the step from 1 to 0. -/
theorem C3_goTo_zero_changes_step :
    (goToStep initState 0).currentStep = 0 ∧ initState.currentStep = 1 :=
  ⟨rfl, rfl⟩

/-- C3 amended: only steps greater than 3 are refused (state unchanged); every
step at or below 1 is accepted and stored as the current step, so in
particular `goTo(1)` always succeeds. -/
theorem C3_step_guard_amended (s : ClientState) (n : Int) :
    (4 ≤ n → goToStep s n = s) ∧
    (n ≤ 1 → goToStep s n = { s with currentStep := n }) ∧
    goToStep s 1 = { s with currentStep := 1 } :=
  ⟨goToStep_ge_four s n, goToStep_le_one s n, goToStep_le_one s 1 (by norm_num)⟩

/-- Witness for the amended C3 at steps 5 and 0. -/
theorem C3_step_guard_amended_witness :
    goToStep initState 5 = initState ∧
    goToStep initState 0 = { initState with currentStep := 0 } :=
  ⟨(C3_step_guard_amended initState 5).1 (by norm_num),
   (C3_step_guard_amended initState 0).2.1 (by norm_num)⟩

/-- C5: when a client-side precondition of `handleFileList` fails — falsy
token, falsy session id, or a first file whose MIME type is not an accepted
image type — the state is returned untouched, zero gateway calls are issued,
and a local alert message is produced. -/
theorem C5_precondition_guards (s : ClientState) (files : List JsFile)
    (resp : ApiResponse AnalysisResult)
    (h : jsTruthy s.token = false ∨ jsTruthy s.sessionId = false ∨
         (∃ f rest, files = f :: rest ∧ validImageType f.type = false)) :
    (handleFileList files resp s).1 = s ∧ (handleFileList files resp s).2.1 = 0 ∧
    ((handleFileList files resp s).2.2).isSome = true := by
  unfold handleFileList
  by_cases htok : jsTruthy s.token = true
  · simp only [htok, Bool.not_true, Bool.false_eq_true, if_false]
    by_cases hsess : jsTruthy s.sessionId = true
    · simp only [hsess, Bool.not_true, Bool.false_eq_true, if_false]
      rcases h with h | h | ⟨f, rest, hfiles, hmime⟩
      · simp [h] at htok
      · simp [h] at hsess
      · subst hfiles
        simp only [hmime, Bool.not_false, if_true]
        refine ⟨?_, ?_, ?_⟩ <;> trivial
    · have hs2 : jsTruthy s.sessionId = false := by simpa using hsess
      simp only [hs2, Bool.not_false, if_true]
      refine ⟨?_, ?_, ?_⟩ <;> trivial
  · have ht2 : jsTruthy s.token = false := by simpa using htok
    simp only [ht2, Bool.not_false, if_true]
    refine ⟨?_, ?_, ?_⟩ <;> trivial

/-- Witness for C5: a PDF offered to an authenticated session. -/
theorem C5_precondition_guards_witness :
    (handleFileList [filePdf] (.serverError none) pendingState).1 = pendingState ∧
    (handleFileList [filePdf] (.serverError none) pendingState).2.1 = 0 ∧
    ((handleFileList [filePdf] (.serverError none) pendingState).2.2).isSome = true :=
  C5_precondition_guards pendingState [filePdf] (.serverError none)
    (Or.inr (Or.inr ⟨filePdf, [], rfl, by decide⟩))

/-- C6: a successful upload installs the returned result as the one live
analysis (replacing whatever was there) and moves the wizard to step 3
unconditionally, while a rejected or failed upload leaves both the step and
the installed analysis untouched — the exchange never navigates backward. -/
theorem C6_upload_success_advances (s : ClientState) (f : JsFile) (r : AnalysisResult)
    (htok : jsTruthy s.token = true) :
    (uploadFile f (.ok r) s).latestAnalysis = some r ∧
    (uploadFile f (.ok r) s).currentStep = 3 ∧
    (∀ d, (uploadFile f (.serverError d) s).currentStep = s.currentStep ∧
          (uploadFile f (.serverError d) s).latestAnalysis = s.latestAnalysis) ∧
    (∀ m, (uploadFile f (.networkFailure m) s).currentStep = s.currentStep ∧
          (uploadFile f (.networkFailure m) s).latestAnalysis = s.latestAnalysis) := by
  refine ⟨?_, ?_, fun d => ⟨?_, ?_⟩, fun m => ⟨?_, ?_⟩⟩
  · rw [uploadFile_ok_eq f r s htok]
  · rw [uploadFile_ok_eq f r s htok]
  · rw [uploadFile_serverError_eq]
  · rw [uploadFile_serverError_eq]
  · rw [uploadFile_networkFailure_eq]
  · rw [uploadFile_networkFailure_eq]

/-- Witness for C6 at a live session. -/
theorem C6_upload_success_advances_witness :
    (uploadFile fileA (.ok resultA) pendingState).latestAnalysis = some resultA ∧
    (uploadFile fileA (.ok resultA) pendingState).currentStep = 3 :=
  ⟨(C6_upload_success_advances pendingState fileA resultA (by decide)).1,
   (C6_upload_success_advances pendingState fileA resultA (by decide)).2.1⟩

/-- C7: a server rejection (non-2xx, non-401) of session creation or of an
analysis upload leaves every non-message field of the state — credential,
profile, catalog, session record, analysis and wizard step — exactly as it
was; only status text changes. -/
theorem C7_server_rejection_preserves_state (s : ClientState) (mode : String) (pct : ℚ)
    (tools : List String) (d : Option String) (m : String) (f : JsFile) :
    coreState (submitSessionForm mode pct tools (.serverError d) s) = coreState s ∧
    coreState (submitSessionForm mode pct tools (.networkFailure m) s) = coreState s ∧
    coreState (uploadFile f (.serverError d) s) = coreState s ∧
    coreState (uploadFile f (.networkFailure m) s) = coreState s := by
  refine ⟨?_, ?_, ?_, ?_⟩
  · unfold submitSessionForm
    split
    next => rfl
    next =>
      split
      next => rfl
      next =>
        split
        next => rfl
        next =>
          simp only [apiRequest_serverError_eq]
          split
          next => rfl
          next => rfl
  · unfold submitSessionForm
    split
    next => rfl
    next =>
      split
      next => rfl
      next =>
        split
        next => rfl
        next =>
          simp only [apiRequest_networkFailure_eq]
          split
          next => rfl
          next => rfl
  · rw [uploadFile_serverError_eq]
    rfl
  · rw [uploadFile_networkFailure_eq]
    rfl

theorem jsTruthy_none : jsTruthy none = false := rfl

theorem round2_eq_floor (p : ℚ) : round2 (p / 100) = ((⌊p + 1 / 2⌋ : Int) : ℚ) / 100 := by
  unfold round2 jsRound
  rw [div_mul_cancel₀ p (by norm_num : (100 : ℚ) ≠ 0)]

theorem round2_div_100_int (k : Int) : round2 ((k : ℚ) / 100) = (k : ℚ) / 100 := by
  rw [round2_eq_floor]
  rw [Int.floor_int_add]
  norm_num

/-- C2: a 401 reply to any authenticated exchange — the raw gateway call, the
profile fetch of `verifySession`, session creation and the analysis upload —
removes the persisted credential and clears the token, the profile, the
checkout session and the analysis, and forces the wizard to step 1. -/
theorem C2_unauthorized_teardown (s : ClientState) (t : String) (h : s.token = some t)
    (ht : t ≠ "") (mode : String) (pct : ℚ) (tools : List String) (f : JsFile)
    (cr : Option (List Tool)) (hcat : s.toolCatalog ≠ []) (htools : tools ≠ []) :
    loggedOutCleared ((apiRequest (α := Engineer) true .http401 s).1) ∧
    loggedOutCleared ((verifySession .http401 cr s).1) ∧
    loggedOutCleared (submitSessionForm mode pct tools .http401 s) ∧
    loggedOutCleared (uploadFile f .http401 s) := by
  have htok : jsTruthy s.token = true := by rw [h]; simp [jsTruthy, ht]
  have h1 : s.toolCatalog.isEmpty = false := by
    cases hc : s.toolCatalog with
    | nil => exact absurd hc hcat
    | cons a l => rfl
  have h2 : tools.isEmpty = false := by
    cases hc : tools with
    | nil => exact absurd hc htools
    | cons a l => rfl
  refine ⟨?_, ?_, ?_, ?_⟩
  · rw [apiRequest_http401_eq]
    simp only [htok, Bool.not_true, Bool.and_false, Bool.false_eq_true, if_false,
      handleUnauthorized_eq]
    unfold loggedOutCleared
    refine ⟨?_, ?_, ?_, ?_, ?_, ?_⟩ <;> trivial
  · unfold verifySession
    simp only [htok, Bool.not_true, Bool.false_eq_true, if_false, apiRequest_http401_eq,
      Bool.and_false, handleUnauthorized_eq]
    unfold loggedOutCleared
    refine ⟨?_, ?_, ?_, ?_, ?_, ?_⟩ <;> trivial
  · unfold submitSessionForm
    simp only [h1, h2, htok, Bool.not_true, Bool.false_eq_true, if_false,
      apiRequest_http401_eq, Bool.and_false, handleUnauthorized_eq, jsTruthy_none]
    unfold loggedOutCleared
    refine ⟨?_, ?_, ?_, ?_, ?_, ?_⟩ <;> trivial
  · unfold uploadFile uploadEventStep applyAnalysisOutcome
    simp only [apiRequest_http401_eq, htok, Bool.not_true, Bool.and_false,
      Bool.false_eq_true, if_false, handleUnauthorized_eq]
    unfold loggedOutCleared
    refine ⟨?_, ?_, ?_, ?_, ?_, ?_⟩ <;> trivial

/-- Witness for C2 at a state holding a credential, a one-tool catalog and a
selected tool. -/
theorem C2_unauthorized_teardown_witness :
    loggedOutCleared ((apiRequest (α := Engineer) true .http401 catalogState).1) ∧
    loggedOutCleared ((verifySession .http401 none catalogState).1) ∧
    loggedOutCleared (submitSessionForm "handout" 90 ["t1"] .http401 catalogState) ∧
    loggedOutCleared (uploadFile fileA .http401 catalogState) :=
  C2_unauthorized_teardown catalogState "tok" rfl (by decide) "handout" 90 ["t1"] fileA
    none (by decide) (by decide)

/-- C4 counterexample: the claim asserts the normalization-plus-reverse round
trip is idempotent for every percentage in [0,100], but a percentage of 0.4
normalizes to the fraction 0, whose reverse percentage 0 is falsy and is
replaced by the `|| 90` default on the next pass, yielding 0.90 instead of 0. -/
theorem C4_normalization_not_idempotent :
    normalizeThreshold (2 / 5) = 0 ∧
    normalizeThreshold ((thresholdToPercent (normalizeThreshold (2 / 5)) : ℚ)) = 9 / 10 ∧
    (9 / 10 : ℚ) ≠ 0 := by
  refine ⟨?_, ?_, by norm_num⟩ <;>
    norm_num [normalizeThreshold, round2, jsRound, jsOrNum, thresholdToPercent]

/-- C4 amended: a truthy (nonzero) percentage is normalized by dividing by 100
and rounding to two decimals — in particular 87 yields exactly 0.87 — while a
zero percentage falls back to the default 90; the round trip through
`Math.round(threshold * 100)` is idempotent for the percentage 0 and for every
percentage in [0.5, 100], the inputs whose normalized fraction re-enters as a
truthy percentage. -/
theorem C4_normalization_amended (p : ℚ) :
    (p ≠ 0 → normalizeThreshold p = round2 (p / 100)) ∧
    normalizeThreshold 87 = 87 / 100 ∧
    (p = 0 ∨ (1 / 2 ≤ p ∧ p ≤ 100) →
      normalizeThreshold ((thresholdToPercent (normalizeThreshold p) : ℚ)) =
        normalizeThreshold p) := by
  refine ⟨fun hp => ?_, ?_, ?_⟩
  · unfold normalizeThreshold jsOrNum
    rw [if_neg hp]
  · norm_num [normalizeThreshold, round2, jsRound, jsOrNum]
  · rintro (rfl | ⟨hlow, hhigh⟩)
    · norm_num [normalizeThreshold, round2, jsRound, jsOrNum, thresholdToPercent]
    · have hp0 : p ≠ 0 := by intro h0; rw [h0] at hlow; norm_num at hlow
      have e1 : normalizeThreshold p = ((⌊p + 1 / 2⌋ : Int) : ℚ) / 100 := by
        unfold normalizeThreshold jsOrNum
        rw [if_neg hp0, round2_eq_floor]
      have hk1 : (1 : Int) ≤ ⌊p + 1 / 2⌋ := by
        rw [Int.le_floor]
        push_cast
        linarith
      have e2 : thresholdToPercent (normalizeThreshold p) = ⌊p + 1 / 2⌋ := by
        rw [e1]
        unfold thresholdToPercent jsRound
        rw [div_mul_cancel₀ _ (by norm_num : (100 : ℚ) ≠ 0), Int.floor_int_add]
        norm_num
      rw [e2, e1]
      have hkz : ((⌊p + 1 / 2⌋ : Int) : ℚ) ≠ 0 := by
        rw [Int.cast_ne_zero]
        omega
      unfold normalizeThreshold jsOrNum
      rw [if_neg hkz, round2_div_100_int]

/-- Witness for the amended C4 at the percentage 87. -/
theorem C4_normalization_amended_witness :
    normalizeThreshold 87 = round2 (87 / 100) ∧
    normalizeThreshold ((thresholdToPercent (normalizeThreshold 87) : ℚ)) =
      normalizeThreshold 87 :=
  ⟨(C4_normalization_amended 87).1 (by norm_num),
   (C4_normalization_amended 87).2.2 (Or.inr ⟨by norm_num, by norm_num⟩)⟩

/-- C8 counterexample: a network failure of the profile fetch (not a 401) also
wipes the credential, because the `catch` of `verifySession` routes every
failure through `handleUnauthorized`; the claim says only a 401 or an explicit
logout may demote the client. -/
theorem C8_profile_network_failure_wipes_credential :
    authedState.token = some "tok" ∧
    (verifySession (.networkFailure "Failed to fetch") none authedState).1.token = none ∧
    (verifySession (.networkFailure "Failed to fetch") none authedState).1.storage = none := by
  refine ⟨rfl, ?_, ?_⟩ <;> decide

theorem resetWizard_token (b : Bool) (s : ClientState) : (resetWizard b s).token = s.token := by
  rw [resetWizard_eq]

theorem submitSessionForm_ok_token (mode : String) (thr : ℚ) (tools : List String)
    (sess : Session) (s : ClientState) :
    (submitSessionForm mode thr tools (.ok sess) s).token = s.token := by
  unfold submitSessionForm
  split
  next => rfl
  next =>
    split
    next => rfl
    next =>
      split
      next => rfl
      next =>
        simp only [apiRequest_ok_eq, Bool.true_and]
        by_cases hc : jsTruthy s.token = true
        · simp only [hc, Bool.not_true, Bool.false_eq_true, if_false]
          rw [applySession_token]
        · have hcf : jsTruthy s.token = false := by simpa using hc
          simp only [hcf, Bool.not_false, if_true, Bool.false_eq_true, if_false]

theorem submitSessionForm_serverError_token (mode : String) (thr : ℚ) (tools : List String)
    (d : Option String) (s : ClientState) :
    (submitSessionForm mode thr tools (.serverError d) s).token = s.token := by
  unfold submitSessionForm
  split
  next => rfl
  next =>
    split
    next => rfl
    next =>
      split
      next => rfl
      next =>
        simp only [apiRequest_serverError_eq]
        split
        next => rfl
        next => rfl

theorem submitSessionForm_networkFailure_token (mode : String) (thr : ℚ)
    (tools : List String) (m : String) (s : ClientState) :
    (submitSessionForm mode thr tools (.networkFailure m) s).token = s.token := by
  unfold submitSessionForm
  split
  next => rfl
  next =>
    split
    next => rfl
    next =>
      split
      next => rfl
      next =>
        simp only [apiRequest_networkFailure_eq]
        split
        next => rfl
        next => rfl

theorem handleFileList_ok_token (files : List JsFile) (r : AnalysisResult) (s : ClientState) :
    ((handleFileList files (.ok r) s).1).token = s.token := by
  unfold handleFileList
  split
  next => rfl
  next =>
    split
    next => rfl
    next =>
      split
      next => rfl
      next =>
        split
        next => rfl
        next =>
          unfold uploadFile uploadEventStep applyAnalysisOutcome
          simp only [apiRequest_ok_eq, Bool.true_and]
          by_cases hc : jsTruthy s.token = true
          · simp only [hc, Bool.not_true, Bool.false_eq_true, if_false]
            rw [goToStep_token]
            rfl
          · have hcf : jsTruthy s.token = false := by simpa using hc
            simp only [hcf, Bool.not_false, if_true]

theorem handleFileList_serverError_token (files : List JsFile) (d : Option String)
    (s : ClientState) : ((handleFileList files (.serverError d) s).1).token = s.token := by
  unfold handleFileList
  split
  next => rfl
  next =>
    split
    next => rfl
    next =>
      split
      next => rfl
      next =>
        split
        next => rfl
        next =>
          rw [uploadFile_serverError_eq]

theorem handleFileList_networkFailure_token (files : List JsFile) (m : String)
    (s : ClientState) : ((handleFileList files (.networkFailure m) s).1).token = s.token := by
  unfold handleFileList
  split
  next => rfl
  next =>
    split
    next => rfl
    next =>
      split
      next => rfl
      next =>
        split
        next => rfl
        next =>
          rw [uploadFile_networkFailure_eq]

theorem handleLogin_serverError_token (u p : String) (d : Option String)
    (pr : ApiResponse Engineer) (cr : Option (List Tool)) (s : ClientState) :
    (handleLogin u p (.serverError d) pr cr s).token = s.token := by
  unfold handleLogin
  split
  next => rfl
  next =>
    simp only [apiRequest_serverError_eq]
    rfl

theorem handleLogin_networkFailure_token (u p m : String) (pr : ApiResponse Engineer)
    (cr : Option (List Tool)) (s : ClientState) :
    (handleLogin u p (.networkFailure m) pr cr s).token = s.token := by
  unfold handleLogin
  split
  next => rfl
  next =>
    simp only [apiRequest_networkFailure_eq]
    rfl

theorem handleLogin_token_ok_ok (u p tok : String) (prof : Engineer)
    (cr : Option (List Tool)) (s : ClientState) :
    (handleLogin u p (.ok tok) (.ok prof) cr s).token = s.token ∨
    (handleLogin u p (.ok tok) (.ok prof) cr s).token = some tok := by
  unfold handleLogin
  split
  next => left; rfl
  next =>
    simp only [apiRequest_ok_eq, Bool.false_and, Bool.false_eq_true, if_false]
    right
    by_cases htk : jsTruthy (some tok) = true
    · have h1 := verifySession_ok_eq prof cr
        { s with loginError := none, token := some tok, storage := some tok } htk
      have h2 := verifySession_ok_snd prof cr
        { s with loginError := none, token := some tok, storage := some tok } htk
      rcases hres : verifySession (.ok prof) cr
        { s with loginError := none, token := some tok, storage := some tok } with ⟨s3, res⟩
      rw [hres] at h1 h2
      cases res with
      | ok _ =>
          have h1x : s3 = _ := h1
          subst h1x
          rfl
      | error msg => exact absurd h2 (by simp)
    · have hf : jsTruthy (some tok) = false := by simpa using htk
      unfold verifySession
      simp only [hf, Bool.not_false, if_true]
      rfl

/-- C8 amended: starting from an authenticated state, the client demotes
itself to anonymous (clears the in-memory token) only through an explicit
logout, a 401 reply to an authenticated exchange, or a failure of the profile
verification during login — any error of the profile fetch, including a plain
network failure, also wipes the credential; no other event does. -/
theorem C8_demotion_paths (s : ClientState) (a : ClientAction)
    (htok : jsTruthy s.token = true) (hclear : (stepAction a s).token = none) :
    DemotingAction a := by
  have hsome : ∃ v, s.token = some v := by
    cases hv : s.token with
    | none => rw [hv] at htok; simp [jsTruthy] at htok
    | some v => exact ⟨v, rfl⟩
  obtain ⟨v, hv⟩ := hsome
  cases a with
  | goTo n =>
      have hc2 : (goToStep s n).token = none := hclear
      rw [goToStep_token, hv] at hc2
      exact Option.noConfusion hc2
  | backToUpload =>
      have hc2 : (if jsTruthy s.sessionId = true then goToStep s 2 else s).token = none :=
        hclear
      rw [apply_ite ClientState.token, goToStep_token, ite_self, hv] at hc2
      exact Option.noConfusion hc2
  | resetUploadClick =>
      have hc2 : (goToStep (resetUpload s) 2).token = none := hclear
      rw [goToStep_token] at hc2
      have hc3 : s.token = none := hc2
      rw [hv] at hc3
      exact Option.noConfusion hc3
  | startNewSession =>
      have hc2 : (goToStep (resetWizard false s) 1).token = none := hclear
      rw [goToStep_token, resetWizard_token, hv] at hc2
      exact Option.noConfusion hc2
  | submitSession mode thr tools resp =>
      cases resp with
      | ok sess =>
          have hc2 : (submitSessionForm mode thr tools (.ok sess) s).token = none := hclear
          rw [submitSessionForm_ok_token, hv] at hc2
          exact Option.noConfusion hc2
      | http401 => exact rfl
      | serverError d =>
          have hc2 : (submitSessionForm mode thr tools (.serverError d) s).token = none :=
            hclear
          rw [submitSessionForm_serverError_token, hv] at hc2
          exact Option.noConfusion hc2
      | networkFailure m =>
          have hc2 : (submitSessionForm mode thr tools (.networkFailure m) s).token = none :=
            hclear
          rw [submitSessionForm_networkFailure_token, hv] at hc2
          exact Option.noConfusion hc2
  | chooseFiles files resp =>
      cases resp with
      | ok r =>
          have hc2 : ((handleFileList files (.ok r) s).1).token = none := hclear
          rw [handleFileList_ok_token, hv] at hc2
          exact Option.noConfusion hc2
      | http401 => exact rfl
      | serverError d =>
          have hc2 : ((handleFileList files (.serverError d) s).1).token = none := hclear
          rw [handleFileList_serverError_token, hv] at hc2
          exact Option.noConfusion hc2
      | networkFailure m =>
          have hc2 : ((handleFileList files (.networkFailure m) s).1).token = none := hclear
          rw [handleFileList_networkFailure_token, hv] at hc2
          exact Option.noConfusion hc2
  | login u p lr pr cr =>
      cases lr with
      | ok tok =>
          cases pr with
          | ok prof =>
              have hc2 : (handleLogin u p (.ok tok) (.ok prof) cr s).token = none := hclear
              rcases handleLogin_token_ok_ok u p tok prof cr s with hca | hcb
              · rw [hca, hv] at hc2
                exact Option.noConfusion hc2
              · rw [hcb] at hc2
                exact Option.noConfusion hc2
          | http401 =>
              exact Or.inr ⟨tok, rfl, fun prof h => ApiResponse.noConfusion h⟩
          | serverError d =>
              exact Or.inr ⟨tok, rfl, fun prof h => ApiResponse.noConfusion h⟩
          | networkFailure m =>
              exact Or.inr ⟨tok, rfl, fun prof h => ApiResponse.noConfusion h⟩
      | http401 => exact Or.inl rfl
      | serverError d =>
          have hc2 : (handleLogin u p (.serverError d) pr cr s).token = none := hclear
          rw [handleLogin_serverError_token, hv] at hc2
          exact Option.noConfusion hc2
      | networkFailure m =>
          have hc2 : (handleLogin u p (.networkFailure m) pr cr s).token = none := hclear
          rw [handleLogin_networkFailure_token, hv] at hc2
          exact Option.noConfusion hc2
  | logout => trivial

/-- Witness for the amended C8: logout is a demoting action, applied at a
concrete authenticated state it clears the token. -/
theorem C8_demotion_paths_witness : DemotingAction ClientAction.logout :=
  C8_demotion_paths authedState ClientAction.logout (by decide) (by decide)

/-- C9 counterexample: the claim says the client enforces last-submitted-wins
with late earlier responses discarded at apply time, but the script keeps no
in-flight flag and no request sequence number, so with two overlapping
submissions whose replies arrive out of order the earlier-submitted reply
overwrites the later one: the final live analysis is `resultA`, not the
last-submitted `resultB`. -/
theorem C9_late_response_overwrites :
    (List.foldl (fun st e => uploadEventStep e st) pendingState
        [UploadEvent.submit fileA, UploadEvent.submit fileB,
         UploadEvent.arrive (.ok resultB),
         UploadEvent.arrive (.ok resultA)]).latestAnalysis = some resultA ∧
    resultA ≠ resultB := by
  refine ⟨rfl, fun h => ?_⟩
  have hs := congrArg AnalysisResult.session_status h
  simp [resultA, resultB] at hs

/-- C9 amended: each arriving successful analysis reply is installed
unconditionally — the live analysis is the last reply to arrive, not the last
submitted — and a submission start only rewrites the progress line, recording
no in-flight marker that an apply-time guard could consult. -/
theorem C9_last_arrival_wins (s : ClientState) (r : AnalysisResult)
    (htok : jsTruthy s.token = true) :
    (uploadEventStep (.arrive (.ok r)) s).latestAnalysis = some r ∧
    (∀ f, uploadEventStep (.submit f) s = { s with analysisSummary := msgProcessing }) := by
  constructor
  · unfold uploadEventStep applyAnalysisOutcome
    simp only [apiRequest_ok_eq, htok, Bool.not_true, Bool.and_false, Bool.false_eq_true,
      if_false]
    rw [goToStep_latestAnalysis]
    rfl
  · intro f
    rfl

/-- Witness for the amended C9 at a live session. -/
theorem C9_last_arrival_wins_witness :
    (uploadEventStep (.arrive (.ok resultA)) pendingState).latestAnalysis = some resultA :=
  (C9_last_arrival_wins pendingState resultA (by decide)).1

/-- C10: every successful authentication resets the wizard — after a page
load with any persisted token and any verification outcome the session,
analysis and form status are cleared and the step is 1; a successful login
stores exactly the new token and profile on top of a fully reset wizard; and
silent re-verification of an existing token resets the wizard while keeping
the token and the persisted credential. -/
theorem C10_authentication_resets_wizard :
    (∀ (saved : Option String) (pr : ApiResponse Engineer) (cr : Option (List Tool)),
      (appInit saved pr cr).sessionId = none ∧ (appInit saved pr cr).latestAnalysis = none ∧
      (appInit saved pr cr).currentStep = 1 ∧ (appInit saved pr cr).formStatus = none) ∧
    (∀ (s : ClientState) (u p tok : String) (prof : Engineer) (cr : Option (List Tool)),
      u ≠ "" → p ≠ "" → tok ≠ "" →
      handleLogin u p (.ok tok) (.ok prof) cr s =
        { s with loginError := none, token := some tok, storage := some tok,
                 engineer := some prof, toolCatalog := cr.getD s.toolCatalog,
                 sessionId := none, sessionMode := none, expectedToolIds := [],
                 threshold := (9 : ℚ) / 10, latestAnalysis := none, currentStep := 1,
                 formStatus := none, analysisSummary := msgNoData,
                 systemStatus := msgReady }) ∧
    (∀ (s : ClientState) (prof : Engineer) (cr : Option (List Tool)),
      jsTruthy s.token = true →
      (verifySession (.ok prof) cr s).1.sessionId = none ∧
      (verifySession (.ok prof) cr s).1.latestAnalysis = none ∧
      (verifySession (.ok prof) cr s).1.currentStep = 1 ∧
      (verifySession (.ok prof) cr s).1.token = s.token ∧
      (verifySession (.ok prof) cr s).1.storage = s.storage) := by
  refine ⟨?_, ?_, ?_⟩
  · intro saved pr cr
    unfold appInit
    split
    next h =>
      exact verifySession_fst_resets pr cr _ h
    next h =>
      exact ⟨rfl, rfl, rfl, rfl⟩
  · intro s u p tok prof cr hu hp htokne
    have htr : jsTruthy (some tok) = true := by simp [jsTruthy, htokne]
    unfold handleLogin
    rw [if_neg (by simp [hu, hp])]
    simp only [apiRequest_ok_eq, Bool.false_and, Bool.false_eq_true, if_false]
    have h1 := verifySession_ok_eq prof cr
      { s with loginError := none, token := some tok, storage := some tok } htr
    have h2 := verifySession_ok_snd prof cr
      { s with loginError := none, token := some tok, storage := some tok } htr
    rcases hres : verifySession (.ok prof) cr
      { s with loginError := none, token := some tok, storage := some tok } with ⟨s3, res⟩
    rw [hres] at h1 h2
    cases res with
    | ok _ =>
        have h1x : s3 = _ := h1
        subst h1x
        rfl
    | error msg => exact absurd h2 (by simp)
  · intro s prof cr htok
    rw [verifySession_ok_eq prof cr s htok]
    exact ⟨rfl, rfl, rfl, rfl, rfl⟩

/-- Witness for C10: a concrete login from the blank state. -/
theorem C10_authentication_resets_wizard_witness :
    handleLogin "u" "p" (.ok "tok") (.ok engineerU) none initState =
      { initState with loginError := none, token := some "tok", storage := some "tok",
                       engineer := some engineerU,
                       toolCatalog := (none : Option (List Tool)).getD initState.toolCatalog,
                       sessionId := none, sessionMode := none, expectedToolIds := [],
                       threshold := (9 : ℚ) / 10, latestAnalysis := none, currentStep := 1,
                       formStatus := none, analysisSummary := msgNoData,
                       systemStatus := msgReady } :=
  C10_authentication_resets_wizard.2.1 initState "u" "p" "tok" engineerU none
    (by decide) (by decide) (by decide)
